import Mathlib

/-
Verification of the core array-engine contract of numpy-refactor-sprint,
embedded from src/numpy/core/include/numpy/numpy_api.h.  The header is a
contract surface: the reference-counting macros (Npy_INCREF, Npy_DECREF,
Npy_XINCREF, Npy_XDECREF, NpyArray_XDECREF_ERR) carry their bodies in the
header and are translated directly; functions that are only declared in the
header (their .c implementations are not part of this tree) are modelled from
the specification, and each such definition is marked with a doc comment
starting with "Modelled from the spec:".
-/

/- ===================================================================
   Reference counting on core objects (numpy_api.h lines 338-356).
   =================================================================== -/

/-- Magic guard value stamped into live core objects.  The numeric constant
NPY_VALID_MAGIC is defined outside this header; only its role as a fixed
guard value matters, so it is modelled as an arbitrary fixed natural. -/
def NPY_VALID_MAGIC : Nat := 1234567

/-- Core object header: the fields touched by the reference-counting macros,
namely the magic guard and the reference count. -/
structure NpyCoreObject where
  magic_number : Nat
  ob_refcnt : Nat
deriving DecidableEq, Repr

/-- Failure mode of the reference-count macros: the assert on the magic
guard fails loudly (program abort) instead of proceeding. -/
inductive RefError where
  | assertionFailure
deriving DecidableEq, Repr

/-- Translation of the Npy_INCREF macro: assert the magic guard, then
increment the reference count (Py_INCREF on the same object). -/
def Npy_INCREF (a : NpyCoreObject) : Except RefError NpyCoreObject :=
  if NPY_VALID_MAGIC = a.magic_number then
    .ok { a with ob_refcnt := a.ob_refcnt + 1 }
  else
    .error .assertionFailure

/-- Translation of the Npy_DECREF macro: assert the magic guard, then
decrement the reference count (Py_DECREF on the same object). -/
def Npy_DECREF (a : NpyCoreObject) : Except RefError NpyCoreObject :=
  if NPY_VALID_MAGIC = a.magic_number then
    .ok { a with ob_refcnt := a.ob_refcnt - 1 }
  else
    .error .assertionFailure

/-- Translation of the Npy_XINCREF macro: the assert is short-circuited when
the argument is NULL, and Py_XINCREF is a no-op on NULL. -/
def Npy_XINCREF (a : Option NpyCoreObject) : Except RefError (Option NpyCoreObject) :=
  match a with
  | none => .ok none
  | some a =>
      if NPY_VALID_MAGIC = a.magic_number then
        .ok (some { a with ob_refcnt := a.ob_refcnt + 1 })
      else
        .error .assertionFailure

/-- Translation of the Npy_XDECREF macro: the assert is short-circuited when
the argument is NULL, and Py_XDECREF is a no-op on NULL. -/
def Npy_XDECREF (a : Option NpyCoreObject) : Except RefError (Option NpyCoreObject) :=
  match a with
  | none => .ok none
  | some a =>
      if NPY_VALID_MAGIC = a.magic_number then
        .ok (some { a with ob_refcnt := a.ob_refcnt - 1 })
      else
        .error .assertionFailure

/- ===================================================================
   Update-if-copy release semantics (numpy_api.h lines 372-377 and the
   spec model of NpyArray_dealloc).
   =================================================================== -/

/-- Flag set of a strided array, one Bool per flag bit of the C flag word
(NPY_CONTIGUOUS, NPY_FORTRAN, NPY_OWNDATA, NPY_ALIGNED, NPY_WRITEABLE,
NPY_UPDATEIFCOPY). -/
structure ArrFlags where
  c_contiguous : Bool
  f_contiguous : Bool
  owndata : Bool
  aligned : Bool
  writeable : Bool
  updateifcopy : Bool
deriving DecidableEq, Repr

/-- The portion of an NpyArray relevant to release semantics: the element
buffer, the flag word and the reference count. -/
structure NpyArrayModel where
  data : List Int
  flags : ArrFlags
  ob_refcnt : Nat
deriving DecidableEq, Repr

/-- A temporary array together with its base array, as set up by the
update-if-copy mechanism (obj is the temporary copy, base the array it
must be flushed back into). -/
structure ViewState where
  obj : NpyArrayModel
  base : NpyArrayModel
deriving DecidableEq, Repr

/-- Modelled from the spec: NpyArray_dealloc is only declared in the header
(arraytypes.c.src is not part of this tree).  Per the spec, if the
update-if-copy flag is set, destruction must copy the temporary buffer back
into the base array before release, then clear the flag on the base and
restore its writeability. -/
def NpyArray_dealloc (s : ViewState) : ViewState :=
  if s.obj.flags.updateifcopy then
    { s with
      base := { s.base with
        data := s.obj.data,
        flags := { s.base.flags with writeable := true, updateifcopy := false } } }
  else
    s

/-- Modelled from the spec: _Npy_XDECREF is the release-if-not-null entry of
the object-lifecycle collaborator (its definition is not in this tree).
Releasing decrements the reference count and destroys the object, via
NpyArray_dealloc, when the count reaches zero.  The argument is non-null
here; the null case never reaches the deallocator. -/
def _Npy_XDECREF (s : ViewState) : ViewState :=
  let s2 := { s with obj := { s.obj with ob_refcnt := s.obj.ob_refcnt - 1 } }
  if s.obj.ob_refcnt ≤ 1 then NpyArray_dealloc s2 else s2

/-- Translation of the first half of the NpyArray_XDECREF_ERR macro (header
lines 372-376): when obj is non-null and has NPY_UPDATEIFCOPY set, the flag
word of the base array gets NPY_WRITEABLE or-ed in and the flag word of obj
gets NPY_UPDATEIFCOPY cleared.  No data is touched. -/
def NpyArray_XDECREF_ERR_fixup (s : ViewState) : ViewState :=
  if s.obj.flags.updateifcopy then
    { s with
      base := { s.base with flags := { s.base.flags with writeable := true } },
      obj := { s.obj with flags := { s.obj.flags with updateifcopy := false } } }
  else
    s

/-- Translation of the full NpyArray_XDECREF_ERR macro (header lines
372-377): the flag fixup above, followed by _Npy_XDECREF on obj. -/
def NpyArray_XDECREF_ERR (s : ViewState) : ViewState :=
  _Npy_XDECREF (NpyArray_XDECREF_ERR_fixup s)

/-- Concrete update-if-copy pair: the temporary obj holds [1,2,3] with
NPY_UPDATEIFCOPY set and a reference count of one; the base holds [4,5,6]
and is currently non-writeable. -/
def exampleUIC : ViewState :=
  { obj := { data := [1, 2, 3],
             flags := { c_contiguous := true, f_contiguous := false,
                        owndata := true, aligned := true,
                        writeable := true, updateifcopy := true },
             ob_refcnt := 1 },
    base := { data := [4, 5, 6],
              flags := { c_contiguous := true, f_contiguous := false,
                         owndata := true, aligned := true,
                         writeable := false, updateifcopy := false },
              ob_refcnt := 2 } }

/-- Frame conditions of the NpyArray_XDECREF_ERR flag fixup, gathered in one
predicate: base becomes writeable, obj loses NPY_UPDATEIFCOPY, no data moves,
every other flag and the reference count are untouched, and the whole macro
is the fixup followed by the reference-count decrement. -/
def XdecrefErrFrame (s : ViewState) : Prop :=
  (NpyArray_XDECREF_ERR_fixup s).base.flags.writeable = true
  ∧ (NpyArray_XDECREF_ERR_fixup s).obj.flags.updateifcopy = false
  ∧ (NpyArray_XDECREF_ERR_fixup s).base.data = s.base.data
  ∧ (NpyArray_XDECREF_ERR_fixup s).obj.data = s.obj.data
  ∧ (NpyArray_XDECREF_ERR_fixup s).obj.flags.c_contiguous = s.obj.flags.c_contiguous
  ∧ (NpyArray_XDECREF_ERR_fixup s).obj.flags.f_contiguous = s.obj.flags.f_contiguous
  ∧ (NpyArray_XDECREF_ERR_fixup s).obj.flags.owndata = s.obj.flags.owndata
  ∧ (NpyArray_XDECREF_ERR_fixup s).obj.flags.aligned = s.obj.flags.aligned
  ∧ (NpyArray_XDECREF_ERR_fixup s).obj.flags.writeable = s.obj.flags.writeable
  ∧ (NpyArray_XDECREF_ERR_fixup s).base.flags.c_contiguous = s.base.flags.c_contiguous
  ∧ (NpyArray_XDECREF_ERR_fixup s).base.flags.f_contiguous = s.base.flags.f_contiguous
  ∧ (NpyArray_XDECREF_ERR_fixup s).base.flags.owndata = s.base.flags.owndata
  ∧ (NpyArray_XDECREF_ERR_fixup s).base.flags.aligned = s.base.flags.aligned
  ∧ (NpyArray_XDECREF_ERR_fixup s).base.flags.updateifcopy = s.base.flags.updateifcopy
  ∧ (NpyArray_XDECREF_ERR_fixup s).obj.ob_refcnt = s.obj.ob_refcnt
  ∧ (NpyArray_XDECREF_ERR_fixup s).base.ob_refcnt = s.base.ob_refcnt
  ∧ NpyArray_XDECREF_ERR s = _Npy_XDECREF (NpyArray_XDECREF_ERR_fixup s)
  ∧ (NpyArray_XDECREF_ERR s).base.data = s.base.data

/- ===================================================================
   Shape manipulation (numpy_api.h line 273: NpyArray_Newshape) and
   fancy-index gathering (line 292: NpyArray_TakeFrom).
   =================================================================== -/

/-- Error kinds named by the spec that the modelled operations below can
signal. -/
inductive NpyError where
  | InvalidShapeError
  | IndexError
deriving DecidableEq, Repr

/-- Contiguous strided array reduced to its logical content: the element
buffer in C order plus the dimension list.  Strides of a contiguous array
are determined by the dimensions, so they are not repeated here. -/
structure ContigArray where
  data : List Int
  dims : List Nat
deriving DecidableEq, Repr

/-- Result of a reshape: the produced array together with whether it is a
view of the argument (no copy) or a fresh copy. -/
structure ReshapeResult where
  arr : ContigArray
  isView : Bool
deriving DecidableEq, Repr

/-- Modelled from the spec: NpyArray_Newshape is only declared in the header
(the shape implementation is not part of this tree).  reshape returns a view
when the requested shape is compatible with a contiguous reinterpretation of
the existing strides, which for a contiguous array is always the case; the
total element count must be preserved exactly, else it fails with
InvalidShapeError. -/
def NpyArray_Newshape (self : ContigArray) (newdims : List Nat) :
    Except NpyError ReshapeResult :=
  if newdims.prod = self.dims.prod then
    .ok { arr := { data := self.data, dims := newdims }, isView := true }
  else
    .error .InvalidShapeError

/-- Clip-mode policy for out-of-range indices, from npy_defs.h usage in the
header (NPY_CLIPMODE). -/
inductive NPY_CLIPMODE where
  | NPY_RAISE
  | NPY_WRAP
  | NPY_CLIP
deriving DecidableEq, Repr

/-- Modelled from the spec: gathering of one index under a clip mode.  In
raise mode an out-of-bounds position is an IndexError; in wrap mode the
position is wrapped modulo the axis length; in clip mode it is clamped to
the valid range. -/
def takeIndex (self : List Int) (clipmode : NPY_CLIPMODE) (i : Int) :
    Except NpyError Int :=
  match clipmode with
  | .NPY_RAISE =>
      if 0 ≤ i ∧ i < (self.length : Int) then
        .ok (self.getD i.toNat 0)
      else
        .error .IndexError
  | .NPY_WRAP =>
      .ok (self.getD (i % (self.length : Int)).toNat 0)
  | .NPY_CLIP =>
      .ok (self.getD (max 0 (min i ((self.length : Int) - 1))).toNat 0)

/-- Modelled from the spec: the gathering loop of take, one output element
per index, stopping at the first failing index. -/
def takeLoop (self : List Int) (clipmode : NPY_CLIPMODE) :
    List Int → Except NpyError (List Int)
  | [] => .ok []
  | i :: rest =>
      match takeIndex self clipmode i with
      | .error e => .error e
      | .ok x =>
          match takeLoop self clipmode rest with
          | .error e => .error e
          | .ok xs => .ok (x :: xs)

/-- Modelled from the spec: NpyArray_TakeFrom is only declared in the header
(item_selection.c is not part of this tree).  take(source, indices, axis,
clip_mode) gathers the elements of the source along the axis at the given
integer positions; the model is the one-dimensional case, axis 0. -/
def NpyArray_TakeFrom (self : List Int) (indices : List Int)
    (clipmode : NPY_CLIPMODE) : Except NpyError (List Int) :=
  takeLoop self clipmode indices

/- ===================================================================
   Order algorithms (numpy_api.h lines 301-302: NpyArray_Sort and
   NpyArray_ArgSort).
   =================================================================== -/

/-- Sorting-kind selector passed to NpyArray_Sort and NpyArray_ArgSort
(NPY_SORTKIND in npy_defs.h). -/
inductive NPY_SORTKIND where
  | NPY_QUICKSORT
  | NPY_HEAPSORT
  | NPY_MERGESORT
deriving DecidableEq, Repr

/-- Modelled from the spec: NpyArray_Sort is only declared in the header
(item_selection.c is not part of this tree).  Every kind sorts the array by
the descriptor compare function, which on a totally ordered element type
determines the result uniquely, so the model computes the same sorted list
for each kind (realised by insertion sort). -/
def NpyArray_Sort (_which : NPY_SORTKIND) (op : List Int) : List Int :=
  op.insertionSort (· ≤ ·)

/-- Modelled from the spec: NpyArray_ArgSort is only declared in the header.
It returns a permutation of the index range of the array such that reading
the array through it gives the sorted order; the model sorts the index list
by comparing the indexed elements. -/
def NpyArray_ArgSort (_which : NPY_SORTKIND) (op : List Int) :
    List (Fin op.length) :=
  (List.finRange op.length).insertionSort (fun i j => op.get i ≤ op.get j)

instance argsortRelTotal (op : List Int) :
    IsTotal (Fin op.length) (fun i j => op.get i ≤ op.get j) :=
  ⟨fun i j => le_total (op.get i) (op.get j)⟩

instance argsortRelTrans (op : List Int) :
    IsTrans (Fin op.length) (fun i j => op.get i ≤ op.get j) :=
  ⟨fun _ _ _ hab hbc => le_trans hab hbc⟩

/- ===================================================================
   Cast safety (numpy_api.h line 286: NpyArray_CanCastSafely).
   =================================================================== -/

/-- Built-in element types relevant to the cast-safety contract, named by
their NPY type numbers (NPY_INT is the 32-bit int, NPY_LONGLONG the 64-bit
int of the spec examples). -/
inductive NpyType where
  | NPY_BOOL
  | NPY_UBYTE
  | NPY_USHORT
  | NPY_UINT
  | NPY_ULONGLONG
  | NPY_BYTE
  | NPY_SHORT
  | NPY_INT
  | NPY_LONGLONG
  | NPY_FLOAT
  | NPY_DOUBLE
  | NPY_CFLOAT
  | NPY_CDOUBLE
  | NPY_OBJECT
deriving DecidableEq, Fintype, Repr

/-- Kind category of a type descriptor, as used by the per-kind cast
ordering of the spec. -/
inductive NpyKind where
  | bool_kind
  | uint_kind
  | int_kind
  | float_kind
  | complex_kind
  | object_kind
deriving DecidableEq, Repr

/-- Kind of each built-in type. -/
def NpyKindOf : NpyType → NpyKind
  | .NPY_BOOL => .bool_kind
  | .NPY_UBYTE | .NPY_USHORT | .NPY_UINT | .NPY_ULONGLONG => .uint_kind
  | .NPY_BYTE | .NPY_SHORT | .NPY_INT | .NPY_LONGLONG => .int_kind
  | .NPY_FLOAT | .NPY_DOUBLE => .float_kind
  | .NPY_CFLOAT | .NPY_CDOUBLE => .complex_kind
  | .NPY_OBJECT => .object_kind

/-- Rank of a kind in the per-kind total ordering of the spec:
bool < uint < int < float < complex, with object as universal sink. -/
def kindRank : NpyKind → Nat
  | .bool_kind => 0
  | .uint_kind => 1
  | .int_kind => 2
  | .float_kind => 3
  | .complex_kind => 4
  | .object_kind => 5

/-- Smallest integer exactly representable in a type (floating and complex
types represent integers exactly up to two to the mantissa width). -/
def intLo : NpyType → Int
  | .NPY_BOOL => 0
  | .NPY_UBYTE | .NPY_USHORT | .NPY_UINT | .NPY_ULONGLONG => 0
  | .NPY_BYTE => -128
  | .NPY_SHORT => -32768
  | .NPY_INT => -2147483648
  | .NPY_LONGLONG => -9223372036854775808
  | .NPY_FLOAT | .NPY_CFLOAT => -16777216
  | .NPY_DOUBLE | .NPY_CDOUBLE => -9007199254740992
  | .NPY_OBJECT => 0

/-- Largest integer exactly representable in a type. -/
def intHi : NpyType → Int
  | .NPY_BOOL => 1
  | .NPY_UBYTE => 255
  | .NPY_USHORT => 65535
  | .NPY_UINT => 4294967295
  | .NPY_ULONGLONG => 18446744073709551615
  | .NPY_BYTE => 127
  | .NPY_SHORT => 32767
  | .NPY_INT => 2147483647
  | .NPY_LONGLONG => 9223372036854775807
  | .NPY_FLOAT | .NPY_CFLOAT => 16777216
  | .NPY_DOUBLE | .NPY_CDOUBLE => 9007199254740992
  | .NPY_OBJECT => 0

/-- Set of integer values a type represents exactly; the object kind is the
universal sink and represents everything. -/
def exactIntSet (t : NpyType) : Set Int :=
  if NpyKindOf t = .object_kind then Set.univ else Set.Icc (intLo t) (intHi t)

/-- Modelled from the spec: NpyArray_CanCastSafely is only declared in the
header (multiarraymodule.c is not part of this tree).  Per the spec, a cast
is safe exactly when no precision or range loss is possible for any value of
the source type: the object kind is a universal sink, and otherwise the cast
must go up the per-kind ordering and the exactly-representable integer
window of the source must fit inside that of the target. -/
def NpyArray_CanCastSafely (fromtype totype : NpyType) : Bool :=
  if NpyKindOf totype = .object_kind then true
  else if NpyKindOf fromtype = .object_kind then false
  else
    decide (kindRank (NpyKindOf fromtype) ≤ kindRank (NpyKindOf totype))
    && decide (intLo totype ≤ intLo fromtype)
    && decide (intHi fromtype ≤ intHi totype)

/- ===================================================================
   Binary search (numpy_api.h line 304: NpyArray_SearchSorted).
   =================================================================== -/

/-- Insertion-side selector of NpyArray_SearchSorted (NPY_SEARCHSIDE in
npy_defs.h). -/
inductive NPY_SEARCHSIDE where
  | NPY_SEARCHLEFT
  | NPY_SEARCHRIGHT
deriving DecidableEq, Repr

/-- Modelled from the spec: the left-side binary search loop of searchsorted
(local_search_left in item_selection.c, not part of this tree).  Narrows
[lo, hi) until empty, descending below every element strictly smaller than
the searched value. -/
def local_search_left (arr : List Int) (v : Int) (lo hi : Nat) : Nat :=
  if lo < hi then
    if arr.getD ((lo + hi) / 2) 0 < v then
      local_search_left arr v ((lo + hi) / 2 + 1) hi
    else
      local_search_left arr v lo ((lo + hi) / 2)
  else
    lo
termination_by hi - lo
decreasing_by
  all_goals omega

/-- Modelled from the spec: the right-side binary search loop of
searchsorted (local_search_right in item_selection.c, not part of this
tree).  Narrows [lo, hi) until empty, descending below every element smaller
than or equal to the searched value. -/
def local_search_right (arr : List Int) (v : Int) (lo hi : Nat) : Nat :=
  if lo < hi then
    if arr.getD ((lo + hi) / 2) 0 ≤ v then
      local_search_right arr v ((lo + hi) / 2 + 1) hi
    else
      local_search_right arr v lo ((lo + hi) / 2)
  else
    lo
termination_by hi - lo
decreasing_by
  all_goals omega

/-- Modelled from the spec: NpyArray_SearchSorted is only declared in the
header.  Binary search over the whole sorted array for one value, with the
side selecting the insertion-point tie-break among equal elements. -/
def NpyArray_SearchSorted (op1 : List Int) (v : Int) (side : NPY_SEARCHSIDE) :
    Nat :=
  match side with
  | .NPY_SEARCHLEFT => local_search_left op1 v 0 op1.length
  | .NPY_SEARCHRIGHT => local_search_right op1 v 0 op1.length

/- ===================================================================
   Generic hash table (numpy_api.h lines 70-80 for the NpyDict struct,
   lines 157-185 for the declared operations).
   =================================================================== -/

/-- The NpyDict struct fields relevant to the load-ratio invariant (header
lines 70-80): bucket count, element count and the three rehash-threshold
ratios.  The bucket contents, comparators and deallocators do not affect
the ratio and are abstracted away; the float thresholds are modelled as
rationals. -/
structure NpyDict where
  numOfBuckets : Nat
  numOfElements : Nat
  idealRatio : ℚ
  lowerRehashThreshold : ℚ
  upperRehashThreshold : ℚ
deriving DecidableEq, Repr

/-- Load ratio of the table: elements per bucket. -/
def loadRatio (t : NpyDict) : ℚ :=
  (t.numOfElements : ℚ) / (t.numOfBuckets : ℚ)

/-- Modelled from the spec: NpyDict_Rehash is only declared in the header
(npy_dict.c is not part of this tree).  Rehashing resizes the bucket array
and re-inserts every entry, so the element count is unchanged and the
bucket count becomes the requested one. -/
def NpyDict_Rehash (t : NpyDict) (numOfBuckets : Nat) : NpyDict :=
  { t with numOfBuckets := numOfBuckets }

/-- Modelled from the spec: NpyDict_Put inserting a fresh key (npy_dict.c is
not part of this tree).  The element count grows by one; if that pushes the
load ratio above upperRehashThreshold, a rehash resizes the bucket array so
the ratio returns to about idealRatio. -/
def NpyDict_Put (t : NpyDict) : NpyDict :=
  if t.upperRehashThreshold <
      ((t.numOfElements + 1 : Nat) : ℚ) / (t.numOfBuckets : ℚ) then
    NpyDict_Rehash { t with numOfElements := t.numOfElements + 1 }
      ⌈((t.numOfElements + 1 : Nat) : ℚ) / t.idealRatio⌉₊
  else
    { t with numOfElements := t.numOfElements + 1 }

/-- Modelled from the spec: NpyDict_Remove of a present key (npy_dict.c is
not part of this tree).  The element count shrinks by one; if that drops the
load ratio below lowerRehashThreshold, a rehash shrinks the bucket array
(never below one bucket) so the ratio returns toward idealRatio. -/
def NpyDict_Remove (t : NpyDict) : NpyDict :=
  if ((t.numOfElements - 1 : Nat) : ℚ) / (t.numOfBuckets : ℚ) <
      t.lowerRehashThreshold then
    NpyDict_Rehash { t with numOfElements := t.numOfElements - 1 }
      (max 1 ⌈((t.numOfElements - 1 : Nat) : ℚ) / t.idealRatio⌉₊)
  else
    { t with numOfElements := t.numOfElements - 1 }

/- ===================================================================
   Theorems.
   =================================================================== -/

/-- C2.  Every reference-count increment or decrement on a core object
checks the magic guard before changing the count: a mismatch fails loudly
with an assertion failure and leaves the count unchanged, and a successful
call implies the guard held and the count changed by exactly one. -/
theorem refcount_magic_guard :
    (∀ a : NpyCoreObject, a.magic_number ≠ NPY_VALID_MAGIC →
        Npy_INCREF a = .error .assertionFailure)
    ∧ (∀ a : NpyCoreObject, a.magic_number ≠ NPY_VALID_MAGIC →
        Npy_DECREF a = .error .assertionFailure)
    ∧ (∀ a b : NpyCoreObject, Npy_INCREF a = .ok b →
        a.magic_number = NPY_VALID_MAGIC ∧ b.ob_refcnt = a.ob_refcnt + 1)
    ∧ (∀ a b : NpyCoreObject, Npy_DECREF a = .ok b →
        a.magic_number = NPY_VALID_MAGIC ∧ b.ob_refcnt = a.ob_refcnt - 1) := by
  refine ⟨?_, ?_, ?_, ?_⟩
  · intro a h
    have hm : ¬ NPY_VALID_MAGIC = a.magic_number := fun hh => h hh.symm
    simp [Npy_INCREF, hm]
  · intro a h
    have hm : ¬ NPY_VALID_MAGIC = a.magic_number := fun hh => h hh.symm
    simp [Npy_DECREF, hm]
  · intro a b h
    by_cases hm : NPY_VALID_MAGIC = a.magic_number
    · simp [Npy_INCREF, hm] at h
      subst h
      exact ⟨hm.symm, rfl⟩
    · simp [Npy_INCREF, hm] at h
  · intro a b h
    by_cases hm : NPY_VALID_MAGIC = a.magic_number
    · simp [Npy_DECREF, hm] at h
      subst h
      exact ⟨hm.symm, rfl⟩
    · simp [Npy_DECREF, hm] at h

/-- Witness for C2 at concrete inputs: a corrupted object (magic 0) makes
Npy_INCREF fail loudly, and a valid object has its count incremented. -/
theorem refcount_magic_guard_witness :
    ((⟨0, 5⟩ : NpyCoreObject).magic_number ≠ NPY_VALID_MAGIC
      ∧ Npy_INCREF ⟨0, 5⟩ = .error .assertionFailure)
    ∧ (Npy_INCREF ⟨NPY_VALID_MAGIC, 5⟩ = .ok ⟨NPY_VALID_MAGIC, 6⟩
      ∧ (⟨NPY_VALID_MAGIC, 5⟩ : NpyCoreObject).magic_number = NPY_VALID_MAGIC
      ∧ (6 : Nat) = 5 + 1) :=
  ⟨⟨by decide, refcount_magic_guard.1 ⟨0, 5⟩ (by decide)⟩,
   rfl, refcount_magic_guard.2.2.1 ⟨NPY_VALID_MAGIC, 5⟩ ⟨NPY_VALID_MAGIC, 6⟩ rfl⟩

/-- C10.  Npy_XINCREF and Npy_XDECREF tolerate NULL: with a NULL argument no
field is read, no assertion fires, and nothing changes. -/
theorem xincref_xdecref_null_safe :
    Npy_XINCREF none = .ok none ∧ Npy_XDECREF none = .ok none :=
  ⟨rfl, rfl⟩

/-- C9.  For a non-null obj with NPY_UPDATEIFCOPY set, the
NpyArray_XDECREF_ERR macro sets NPY_WRITEABLE on the base, clears
NPY_UPDATEIFCOPY on obj, copies no data into the base (not even via the
deallocator reached by the final decref), and leaves all other flags and
counts of obj and base unchanged before decrementing the reference count. -/
theorem xdecref_err_frame_effects (s : ViewState)
    (h : s.obj.flags.updateifcopy = true) : XdecrefErrFrame s := by
  unfold XdecrefErrFrame NpyArray_XDECREF_ERR _Npy_XDECREF NpyArray_XDECREF_ERR_fixup
    NpyArray_dealloc
  simp [h]

/-- Witness for C9: the frame conditions hold at the concrete pair
exampleUIC, whose obj has NPY_UPDATEIFCOPY set. -/
theorem xdecref_err_frame_effects_witness :
    exampleUIC.obj.flags.updateifcopy = true ∧ XdecrefErrFrame exampleUIC :=
  ⟨by decide, xdecref_err_frame_effects exampleUIC (by decide)⟩

/-- C1 counterexample.  The claim says the flush-back into the base happens
on every release path, error exits included.  It does not: releasing
exampleUIC (update-if-copy set, reference count one, so the decref destroys
obj) through the error-exit macro NpyArray_XDECREF_ERR leaves the base data
untouched, because the macro clears NPY_UPDATEIFCOPY before the decref. -/
theorem updateifcopy_flush_on_error_exit_cex :
    exampleUIC.obj.flags.updateifcopy = true
    ∧ exampleUIC.obj.ob_refcnt = 1
    ∧ (NpyArray_XDECREF_ERR exampleUIC).base.data ≠ exampleUIC.obj.data
    ∧ (NpyArray_XDECREF_ERR exampleUIC).base.data = exampleUIC.base.data := by
  decide

/-- C1 amended.  On the ordinary release path, destruction of an array with
update-if-copy set flushes the temporary buffer into the base, marks the
base writeable and clears the update-if-copy flag; the error-exit path
NpyArray_XDECREF_ERR instead cancels the flush-back by clearing
NPY_UPDATEIFCOPY (and restoring base writeability) before the decref, so no
data is copied there. -/
theorem updateifcopy_flush_semantics (s : ViewState)
    (h : s.obj.flags.updateifcopy = true) (hrc : s.obj.ob_refcnt = 1) :
    ((_Npy_XDECREF s).base.data = s.obj.data
      ∧ (_Npy_XDECREF s).base.flags.writeable = true
      ∧ (_Npy_XDECREF s).base.flags.updateifcopy = false)
    ∧ (NpyArray_XDECREF_ERR s).base.data = s.base.data := by
  unfold NpyArray_XDECREF_ERR _Npy_XDECREF NpyArray_XDECREF_ERR_fixup NpyArray_dealloc
  simp [h, hrc]

/-- Witness for the amended C1 at the concrete pair exampleUIC. -/
theorem updateifcopy_flush_semantics_witness :
    (exampleUIC.obj.flags.updateifcopy = true ∧ exampleUIC.obj.ob_refcnt = 1)
    ∧ (((_Npy_XDECREF exampleUIC).base.data = exampleUIC.obj.data
        ∧ (_Npy_XDECREF exampleUIC).base.flags.writeable = true
        ∧ (_Npy_XDECREF exampleUIC).base.flags.updateifcopy = false)
      ∧ (NpyArray_XDECREF_ERR exampleUIC).base.data = exampleUIC.base.data) :=
  ⟨⟨by decide, by decide⟩, updateifcopy_flush_semantics exampleUIC (by decide) (by decide)⟩

/-- Helper: the take loop succeeds when gathering every single index
succeeds. -/
theorem takeLoop_ok_of_forall_ok (self : List Int) (clipmode : NPY_CLIPMODE)
    (h : ∀ i, ∃ y, takeIndex self clipmode i = .ok y) :
    ∀ l, ∃ out, takeLoop self clipmode l = .ok out := by
  intro l
  induction l with
  | nil => exact ⟨[], rfl⟩
  | cons i t ih =>
      obtain ⟨y, hy⟩ := h i
      obtain ⟨out, hout⟩ := ih
      exact ⟨y :: out, by simp [takeLoop, hy, hout]⟩

/-- Helper: any error the take loop reports comes from gathering one index.
-/
theorem takeLoop_error_of_forall (self : List Int) (clipmode : NPY_CLIPMODE)
    (hf : ∀ i e, takeIndex self clipmode i = .error e → e = .IndexError) :
    ∀ l e, takeLoop self clipmode l = .error e → e = .IndexError := by
  intro l
  induction l with
  | nil =>
      intro e h
      cases h
  | cons i t ih =>
      intro e h
      rw [takeLoop] at h
      cases hfa : takeIndex self clipmode i with
      | error e2 =>
          rw [hfa] at h
          cases h
          exact hf i e hfa
      | ok y =>
          rw [hfa] at h
          cases hmt : takeLoop self clipmode t with
          | error e3 =>
              rw [hmt] at h
              cases h
              exact ih e hmt
          | ok out =>
              rw [hmt] at h
              cases h

/-- C3.  For a contiguous array, reshape to a dimension list of equal
product returns a view (no copy, same buffer), the roundtrip reshape back to
the original dimensions is element-wise identical to the original array, and
a reshape changing the total element count fails with InvalidShapeError. -/
theorem newshape_view_roundtrip (a : ContigArray) (newdims : List Nat) :
    (newdims.prod = a.dims.prod →
      ∃ r : ReshapeResult,
        NpyArray_Newshape a newdims = .ok r
        ∧ r.isView = true
        ∧ r.arr.data = a.data
        ∧ NpyArray_Newshape r.arr a.dims = .ok { arr := a, isView := true })
    ∧ (newdims.prod ≠ a.dims.prod →
      NpyArray_Newshape a newdims = .error .InvalidShapeError) := by
  constructor
  · intro h
    refine ⟨{ arr := { data := a.data, dims := newdims }, isView := true },
            ?_, rfl, rfl, ?_⟩
    · simp [NpyArray_Newshape, h]
    · simp [NpyArray_Newshape, h.symm]
  · intro h
    simp [NpyArray_Newshape, h]

/-- Witness for C3 at a concrete array: reshaping a six-element [2,3] array
to [3,2] is a view with the same buffer and roundtrips, and reshaping it to
[4] fails with InvalidShapeError. -/
theorem newshape_view_roundtrip_witness :
    (([3, 2] : List Nat).prod = (⟨[1, 2, 3, 4, 5, 6], [2, 3]⟩ : ContigArray).dims.prod
      ∧ ∃ r : ReshapeResult,
          NpyArray_Newshape ⟨[1, 2, 3, 4, 5, 6], [2, 3]⟩ [3, 2] = .ok r
          ∧ r.isView = true
          ∧ r.arr.data = [1, 2, 3, 4, 5, 6]
          ∧ NpyArray_Newshape r.arr [2, 3] =
              .ok { arr := ⟨[1, 2, 3, 4, 5, 6], [2, 3]⟩, isView := true })
    ∧ (([4] : List Nat).prod ≠ (⟨[1, 2, 3, 4, 5, 6], [2, 3]⟩ : ContigArray).dims.prod
      ∧ NpyArray_Newshape ⟨[1, 2, 3, 4, 5, 6], [2, 3]⟩ [4] = .error .InvalidShapeError) :=
  ⟨⟨by decide, (newshape_view_roundtrip ⟨[1, 2, 3, 4, 5, 6], [2, 3]⟩ [3, 2]).1 (by decide)⟩,
   ⟨by decide, (newshape_view_roundtrip ⟨[1, 2, 3, 4, 5, 6], [2, 3]⟩ [4]).2 (by decide)⟩⟩

/-- C6.  take fails with IndexError only in raise mode: wrap mode wraps an
out-of-bounds index modulo the axis length (the concrete call from the spec
yields [30,10,30]), the same call in raise mode fails with IndexError, every
call in wrap or clip mode succeeds, and any error raise mode reports is an
IndexError. -/
theorem takefrom_clipmode :
    NpyArray_TakeFrom [10, 20, 30] [2, 0, 5] .NPY_WRAP = .ok [30, 10, 30]
    ∧ NpyArray_TakeFrom [10, 20, 30] [2, 0, 5] .NPY_RAISE = .error .IndexError
    ∧ (∀ (self indices : List Int) (clipmode : NPY_CLIPMODE),
        clipmode ≠ .NPY_RAISE →
        ∃ out, NpyArray_TakeFrom self indices clipmode = .ok out)
    ∧ (∀ (self indices : List Int) (e : NpyError),
        NpyArray_TakeFrom self indices .NPY_RAISE = .error e →
        e = .IndexError) := by
  refine ⟨rfl, rfl, ?_, ?_⟩
  · intro self indices clipmode hmode
    refine takeLoop_ok_of_forall_ok _ _ ?_ indices
    intro i
    cases clipmode with
    | NPY_RAISE => exact absurd rfl hmode
    | NPY_WRAP => exact ⟨_, rfl⟩
    | NPY_CLIP => exact ⟨_, rfl⟩
  · intro self indices e h
    refine takeLoop_error_of_forall _ _ ?_ indices e h
    intro i e2 hi
    unfold takeIndex at hi
    by_cases hb : 0 ≤ i ∧ i < (self.length : Int)
    · rw [if_pos hb] at hi
      cases hi
    · rw [if_neg hb] at hi
      cases hi
      rfl

/-- Witness for C6: clip mode is not raise mode and a call with an
out-of-bounds index succeeds in clip mode, and the error reported by a
concrete out-of-bounds raise-mode call is an IndexError. -/
theorem takefrom_clipmode_witness :
    (NPY_CLIPMODE.NPY_CLIP ≠ NPY_CLIPMODE.NPY_RAISE
      ∧ ∃ out, NpyArray_TakeFrom [10, 20, 30] [7, -4] .NPY_CLIP = .ok out)
    ∧ (NpyArray_TakeFrom [5] [3] .NPY_RAISE = .error .IndexError
      ∧ NpyError.IndexError = NpyError.IndexError) :=
  ⟨⟨by decide, takefrom_clipmode.2.2.1 [10, 20, 30] [7, -4] .NPY_CLIP (by decide)⟩,
   ⟨rfl, takefrom_clipmode.2.2.2 [5] [3] .IndexError rfl⟩⟩

/-- C4.  For every sort kind, sorting an already-sorted array returns an
identical array, and applying the permutation returned by argsort to the
original array reproduces the sorted array. -/
theorem sort_idempotent_argsort_perm (which : NPY_SORTKIND) (op : List Int) :
    (op.Sorted (· ≤ ·) → NpyArray_Sort which op = op)
    ∧ (NpyArray_ArgSort which op).map op.get = NpyArray_Sort which op := by
  constructor
  · intro h
    exact h.insertionSort_eq
  · have hperm : List.Perm ((NpyArray_ArgSort which op).map op.get) op := by
      have h1 : List.Perm (NpyArray_ArgSort which op) (List.finRange op.length) :=
        List.perm_insertionSort _ _
      have h2 : List.Perm ((NpyArray_ArgSort which op).map op.get)
          ((List.finRange op.length).map op.get) := h1.map _
      rw [List.finRange_map_get op] at h2
      exact h2
    have hsorted1 : ((NpyArray_ArgSort which op).map op.get).Sorted (· ≤ ·) :=
      List.pairwise_map.mpr
        (List.sorted_insertionSort (fun i j => op.get i ≤ op.get j)
          (List.finRange op.length))
    have hsorted2 : (NpyArray_Sort which op).Sorted (· ≤ ·) :=
      List.sorted_insertionSort _ op
    exact List.eq_of_perm_of_sorted
      (hperm.trans (List.perm_insertionSort _ op).symm) hsorted1 hsorted2

/-- Witness for C4 at a concrete array: sorting the sorted list [1,2,2]
returns it unchanged, and reading [2,1,3] through its argsort permutation
gives its sorted order. -/
theorem sort_idempotent_argsort_perm_witness :
    (([1, 2, 2] : List Int).Sorted (· ≤ ·)
      ∧ NpyArray_Sort .NPY_MERGESORT [1, 2, 2] = [1, 2, 2])
    ∧ (NpyArray_ArgSort .NPY_QUICKSORT [2, 1, 3]).map ([2, 1, 3] : List Int).get
        = NpyArray_Sort .NPY_QUICKSORT [2, 1, 3] :=
  ⟨⟨by decide, (sort_idempotent_argsort_perm .NPY_MERGESORT [1, 2, 2]).1 (by decide)⟩,
   (sort_idempotent_argsort_perm .NPY_QUICKSORT [2, 1, 3]).2⟩

/-- C5.  can_cast_safely treats object as a universal sink, only ever casts
up the per-kind ordering bool < uint < int < float < complex, is safe only
when no range or precision loss is possible (the exactly-representable
values of the source all fit in the target), and on the concrete examples:
int32 to int64 is safe, int64 to int32 is not. -/
theorem can_cast_safely_ordering :
    (∀ f : NpyType, NpyArray_CanCastSafely f .NPY_OBJECT = true)
    ∧ (∀ f t : NpyType, NpyArray_CanCastSafely f t = true →
        NpyKindOf t = .object_kind
        ∨ kindRank (NpyKindOf f) ≤ kindRank (NpyKindOf t))
    ∧ (∀ f t : NpyType, NpyArray_CanCastSafely f t = true →
        exactIntSet f ⊆ exactIntSet t)
    ∧ NpyArray_CanCastSafely .NPY_INT .NPY_LONGLONG = true
    ∧ NpyArray_CanCastSafely .NPY_LONGLONG .NPY_INT = false := by
  refine ⟨by decide, by decide, ?_, by decide, by decide⟩
  have key : ∀ f t : NpyType, NpyArray_CanCastSafely f t = true →
      NpyKindOf t = .object_kind ∨ (intLo t ≤ intLo f ∧ intHi f ≤ intHi t) := by
    decide
  intro f t h
  by_cases ht : NpyKindOf t = .object_kind
  · unfold exactIntSet
    rw [if_pos ht]
    exact Set.subset_univ _
  · rcases key f t h with hobj | ⟨h1, h2⟩
    · exact absurd hobj ht
    · by_cases hf : NpyKindOf f = .object_kind
      · have hfalse : ∀ f t : NpyType, NpyKindOf f = .object_kind →
            NpyKindOf t ≠ .object_kind → NpyArray_CanCastSafely f t = false := by
          decide
        rw [hfalse f t hf ht] at h
        cases h
      · unfold exactIntSet
        rw [if_neg hf, if_neg ht]
        exact Set.Icc_subset_Icc h1 h2

/-- Witness for C5 at a concrete cast: uint8 to int16 is safe, respects the
kind ordering and loses no representable value. -/
theorem can_cast_safely_ordering_witness :
    NpyArray_CanCastSafely .NPY_UBYTE .NPY_SHORT = true
    ∧ (NpyKindOf .NPY_SHORT = .object_kind
        ∨ kindRank (NpyKindOf .NPY_UBYTE) ≤ kindRank (NpyKindOf .NPY_SHORT))
    ∧ exactIntSet .NPY_UBYTE ⊆ exactIntSet .NPY_SHORT :=
  ⟨by decide,
   can_cast_safely_ordering.2.1 .NPY_UBYTE .NPY_SHORT (by decide),
   can_cast_safely_ordering.2.2.1 .NPY_UBYTE .NPY_SHORT (by decide)⟩

/-- Helper: in a sorted list, reading at a smaller position gives a smaller
or equal element. -/
theorem sorted_getD_mono (arr : List Int) (hs : arr.Sorted (· ≤ ·))
    (i j : Nat) (hij : i ≤ j) (hj : j < arr.length) :
    arr.getD i 0 ≤ arr.getD j 0 := by
  have hi : i < arr.length := Nat.lt_of_le_of_lt hij hj
  rw [List.getD_eq_get arr 0 hi, List.getD_eq_get arr 0 hj]
  exact hs.rel_get_of_le (Fin.mk_le_mk.mpr hij)

/-- Helper: invariant of the left-side binary search loop on a sorted array.
Everything strictly below the searched value stays below the result,
everything at or above the result is at least the value. -/
theorem local_search_left_spec (arr : List Int) (v : Int)
    (hs : arr.Sorted (· ≤ ·)) :
    ∀ (k lo hi : Nat), hi - lo ≤ k → lo ≤ hi → hi ≤ arr.length →
      (∀ i, i < lo → arr.getD i 0 < v) →
      (∀ i, hi ≤ i → i < arr.length → v ≤ arr.getD i 0) →
      lo ≤ local_search_left arr v lo hi
      ∧ local_search_left arr v lo hi ≤ hi
      ∧ (∀ i, i < local_search_left arr v lo hi → arr.getD i 0 < v)
      ∧ (∀ i, local_search_left arr v lo hi ≤ i → i < arr.length →
          v ≤ arr.getD i 0) := by
  intro k
  induction k with
  | zero =>
      intro lo hi hk hlohi hhil hloInv hhiInv
      have hlh : ¬ lo < hi := by omega
      rw [local_search_left, if_neg hlh]
      refine ⟨le_refl _, by omega, hloInv, ?_⟩
      intro i hi2 hil
      exact hhiInv i (by omega) hil
  | succ n ih =>
      intro lo hi hk hlohi hhil hloInv hhiInv
      by_cases hlh : lo < hi
      · rw [local_search_left, if_pos hlh]
        by_cases hcmp : arr.getD ((lo + hi) / 2) 0 < v
        · rw [if_pos hcmp]
          obtain ⟨h1, h2, h3, h4⟩ :=
            ih ((lo + hi) / 2 + 1) hi (by omega) (by omega) hhil
              (fun i hi2 => lt_of_le_of_lt
                (sorted_getD_mono arr hs i ((lo + hi) / 2) (by omega) (by omega))
                hcmp)
              hhiInv
          exact ⟨by omega, h2, h3, h4⟩
        · rw [if_neg hcmp]
          obtain ⟨h1, h2, h3, h4⟩ :=
            ih lo ((lo + hi) / 2) (by omega) (by omega) (by omega) hloInv
              (fun i hi2 hil => le_trans (not_lt.mp hcmp)
                (sorted_getD_mono arr hs ((lo + hi) / 2) i hi2 hil))
          exact ⟨h1, by omega, h3, h4⟩
      · rw [local_search_left, if_neg hlh]
        refine ⟨le_refl _, by omega, hloInv, ?_⟩
        intro i hi2 hil
        exact hhiInv i (by omega) hil

/-- Helper: invariant of the right-side binary search loop on a sorted
array.  Everything below the result is at most the searched value,
everything at or above the result is strictly above it. -/
theorem local_search_right_spec (arr : List Int) (v : Int)
    (hs : arr.Sorted (· ≤ ·)) :
    ∀ (k lo hi : Nat), hi - lo ≤ k → lo ≤ hi → hi ≤ arr.length →
      (∀ i, i < lo → arr.getD i 0 ≤ v) →
      (∀ i, hi ≤ i → i < arr.length → v < arr.getD i 0) →
      lo ≤ local_search_right arr v lo hi
      ∧ local_search_right arr v lo hi ≤ hi
      ∧ (∀ i, i < local_search_right arr v lo hi → arr.getD i 0 ≤ v)
      ∧ (∀ i, local_search_right arr v lo hi ≤ i → i < arr.length →
          v < arr.getD i 0) := by
  intro k
  induction k with
  | zero =>
      intro lo hi hk hlohi hhil hloInv hhiInv
      have hlh : ¬ lo < hi := by omega
      rw [local_search_right, if_neg hlh]
      refine ⟨le_refl _, by omega, hloInv, ?_⟩
      intro i hi2 hil
      exact hhiInv i (by omega) hil
  | succ n ih =>
      intro lo hi hk hlohi hhil hloInv hhiInv
      by_cases hlh : lo < hi
      · rw [local_search_right, if_pos hlh]
        by_cases hcmp : arr.getD ((lo + hi) / 2) 0 ≤ v
        · rw [if_pos hcmp]
          obtain ⟨h1, h2, h3, h4⟩ :=
            ih ((lo + hi) / 2 + 1) hi (by omega) (by omega) hhil
              (fun i hi2 => le_trans
                (sorted_getD_mono arr hs i ((lo + hi) / 2) (by omega) (by omega))
                hcmp)
              hhiInv
          exact ⟨by omega, h2, h3, h4⟩
        · rw [if_neg hcmp]
          obtain ⟨h1, h2, h3, h4⟩ :=
            ih lo ((lo + hi) / 2) (by omega) (by omega) (by omega) hloInv
              (fun i hi2 hil => lt_of_lt_of_le (not_le.mp hcmp)
                (sorted_getD_mono arr hs ((lo + hi) / 2) i hi2 hil))
          exact ⟨h1, by omega, h3, h4⟩
      · rw [local_search_right, if_neg hlh]
        refine ⟨le_refl _, by omega, hloInv, ?_⟩
        intro i hi2 hil
        exact hhiInv i (by omega) hil

/-- C7.  searchsorted is a binary search whose side argument picks the
insertion-point tie-break among equal elements: on a sorted array the left
result bounds exactly the elements strictly below the value and the right
result bounds exactly the elements at most the value, and on the concrete
array [1,3,3,5] with value 3 the left side returns 1 and the right side
returns 3. -/
theorem searchsorted_side_spec :
    (∀ (arr : List Int) (v : Int), arr.Sorted (· ≤ ·) →
      (∀ i, i < NpyArray_SearchSorted arr v .NPY_SEARCHLEFT →
          arr.getD i 0 < v)
      ∧ (∀ i, NpyArray_SearchSorted arr v .NPY_SEARCHLEFT ≤ i →
          i < arr.length → v ≤ arr.getD i 0)
      ∧ (∀ i, i < NpyArray_SearchSorted arr v .NPY_SEARCHRIGHT →
          arr.getD i 0 ≤ v)
      ∧ (∀ i, NpyArray_SearchSorted arr v .NPY_SEARCHRIGHT ≤ i →
          i < arr.length → v < arr.getD i 0)
      ∧ NpyArray_SearchSorted arr v .NPY_SEARCHLEFT ≤ arr.length
      ∧ NpyArray_SearchSorted arr v .NPY_SEARCHRIGHT ≤ arr.length)
    ∧ NpyArray_SearchSorted [1, 3, 3, 5] 3 .NPY_SEARCHLEFT = 1
    ∧ NpyArray_SearchSorted [1, 3, 3, 5] 3 .NPY_SEARCHRIGHT = 3 := by
  refine ⟨?_, ?_, ?_⟩
  · intro arr v hs
    have hl := local_search_left_spec arr v hs arr.length 0 arr.length
      (by omega) (by omega) (le_refl _)
      (fun i hi2 => absurd hi2 (Nat.not_lt_zero i))
      (fun i hi2 hil => absurd hil (by omega))
    have hr := local_search_right_spec arr v hs arr.length 0 arr.length
      (by omega) (by omega) (le_refl _)
      (fun i hi2 => absurd hi2 (Nat.not_lt_zero i))
      (fun i hi2 hil => absurd hil (by omega))
    exact ⟨hl.2.2.1, hl.2.2.2, hr.2.2.1, hr.2.2.2, hl.2.1, hr.2.1⟩
  · show local_search_left [1, 3, 3, 5] 3 0 4 = 1
    have g0 : List.getD ([1, 3, 3, 5] : List Int) 0 0 = 1 := rfl
    have g1 : List.getD ([1, 3, 3, 5] : List Int) 1 0 = 3 := rfl
    have g2 : List.getD ([1, 3, 3, 5] : List Int) 2 0 = 3 := rfl
    rw [local_search_left]
    norm_num [g2]
    rw [local_search_left]
    norm_num [g1]
    rw [local_search_left]
    norm_num [g0]
    rw [local_search_left]
    norm_num
  · show local_search_right [1, 3, 3, 5] 3 0 4 = 3
    have g2 : List.getD ([1, 3, 3, 5] : List Int) 2 0 = 3 := rfl
    have g3 : List.getD ([1, 3, 3, 5] : List Int) 3 0 = 5 := rfl
    rw [local_search_right]
    norm_num [g2]
    rw [local_search_right]
    norm_num [g3]
    rw [local_search_right]
    norm_num

/-- Witness for C7: the invariant instantiated at the sorted array
[1,3,3,5] and value 3. -/
theorem searchsorted_side_spec_witness :
    ([1, 3, 3, 5] : List Int).Sorted (· ≤ ·)
    ∧ (∀ i, i < NpyArray_SearchSorted [1, 3, 3, 5] 3 .NPY_SEARCHLEFT →
        ([1, 3, 3, 5] : List Int).getD i 0 < 3) :=
  ⟨by decide, (searchsorted_side_spec.1 [1, 3, 3, 5] 3 (by decide)).1⟩

/-- Helper: resizing the bucket array to the ceiling of count over ideal
brings the load ratio at or below the ideal ratio. -/
theorem ceil_div_le_ideal (e : Nat) (ideal : ℚ) (hideal : 0 < ideal) :
    (e : ℚ) / ((⌈(e : ℚ) / ideal⌉₊ : Nat) : ℚ) ≤ ideal := by
  rcases Nat.eq_zero_or_pos e with he | he
  · subst he
    simp
    exact hideal.le
  · have hx : (0 : ℚ) < (e : ℚ) / ideal :=
      div_pos (by exact_mod_cast he) hideal
    have hc : (0 : ℚ) < ((⌈(e : ℚ) / ideal⌉₊ : Nat) : ℚ) := by
      exact_mod_cast Nat.ceil_pos.mpr hx
    rw [div_le_iff hc]
    calc (e : ℚ) = (e : ℚ) / ideal * ideal :=
          (div_mul_cancel₀ _ (ne_of_gt hideal)).symm
      _ ≤ ((⌈(e : ℚ) / ideal⌉₊ : Nat) : ℚ) * ideal :=
          mul_le_mul_of_nonneg_right (Nat.le_ceil _) hideal.le
      _ = ideal * ((⌈(e : ℚ) / ideal⌉₊ : Nat) : ℚ) := mul_comm _ _

/-- Helper: the same bound with the bucket count clamped at one bucket. -/
theorem ceil_div_max_le_ideal (e : Nat) (ideal : ℚ) (hideal : 0 < ideal) :
    (e : ℚ) / ((max 1 ⌈(e : ℚ) / ideal⌉₊ : Nat) : ℚ) ≤ ideal := by
  rcases Nat.eq_zero_or_pos e with he | he
  · subst he
    simp
    exact hideal.le
  · have hx : (0 : ℚ) < (e : ℚ) / ideal :=
      div_pos (by exact_mod_cast he) hideal
    have h1 : 1 ≤ ⌈(e : ℚ) / ideal⌉₊ := Nat.ceil_pos.mpr hx
    rw [max_eq_right h1]
    exact ceil_div_le_ideal e ideal hideal

/-- C8 counterexample.  The load ratio does not always stay inside
[lowerRehashThreshold, upperRehashThreshold]: removing the only element of
a table with four buckets and thresholds ideal 1/2, lower 1/4, upper 3/4
triggers the shrink rehash, yet the resulting ratio is 0, strictly below the
lower threshold, so the claimed band invariant fails. -/
theorem dict_load_ratio_cex :
    loadRatio (NpyDict_Remove ⟨4, 1, 1/2, 1/4, 3/4⟩)
      < (⟨4, 1, 1/2, 1/4, 3/4⟩ : NpyDict).lowerRehashThreshold := by
  norm_num [NpyDict_Remove, NpyDict_Rehash, loadRatio]

/-- C8 amended.  Mutations keep the load ratio at or below
upperRehashThreshold (assuming the configured ideal ratio is positive and
at most the upper threshold, and the ratio was within bound before): an
insert that pushes the ratio above the upper threshold rehashes down to
about the ideal ratio, a remove only ever lowers the ratio or rehashes
toward the ideal, and both mutations change the element count by exactly
one (rehashing re-inserts every entry).  The lower threshold is only a
rehash trigger, not an invariant: the ratio of a near-empty table stays
below it. -/
theorem dict_load_ratio_upper (t : NpyDict)
    (hideal : 0 < t.idealRatio)
    (hiu : t.idealRatio ≤ t.upperRehashThreshold)
    (hload : loadRatio t ≤ t.upperRehashThreshold) :
    loadRatio (NpyDict_Put t) ≤ t.upperRehashThreshold
    ∧ loadRatio (NpyDict_Remove t) ≤ t.upperRehashThreshold
    ∧ (NpyDict_Put t).numOfElements = t.numOfElements + 1
    ∧ (NpyDict_Remove t).numOfElements = t.numOfElements - 1 := by
  refine ⟨?_, ?_, ?_, ?_⟩
  · unfold NpyDict_Put NpyDict_Rehash loadRatio
    by_cases hc : t.upperRehashThreshold <
        ((t.numOfElements + 1 : Nat) : ℚ) / (t.numOfBuckets : ℚ)
    · rw [if_pos hc]
      exact le_trans (ceil_div_le_ideal (t.numOfElements + 1) t.idealRatio hideal) hiu
    · rw [if_neg hc]
      exact not_lt.mp hc
  · unfold NpyDict_Remove NpyDict_Rehash loadRatio
    by_cases hc : ((t.numOfElements - 1 : Nat) : ℚ) / (t.numOfBuckets : ℚ) <
        t.lowerRehashThreshold
    · rw [if_pos hc]
      exact le_trans
        (ceil_div_max_le_ideal (t.numOfElements - 1) t.idealRatio hideal) hiu
    · rw [if_neg hc]
      have hmono : ((t.numOfElements - 1 : Nat) : ℚ) ≤ (t.numOfElements : ℚ) := by
        exact_mod_cast Nat.sub_le t.numOfElements 1
      have hb : (0 : ℚ) ≤ (t.numOfBuckets : ℚ) := Nat.cast_nonneg _
      exact le_trans (div_le_div_of_le hb hmono) hload
  · unfold NpyDict_Put NpyDict_Rehash
    split <;> rfl
  · unfold NpyDict_Remove NpyDict_Rehash
    split <;> rfl

/-- Witness for the amended C8 at a concrete table with four buckets, two
elements, ideal ratio 1/2, lower threshold 1/4 and upper threshold 3/4. -/
theorem dict_load_ratio_upper_witness :
    (0 < (⟨4, 2, 1/2, 1/4, 3/4⟩ : NpyDict).idealRatio
      ∧ (⟨4, 2, 1/2, 1/4, 3/4⟩ : NpyDict).idealRatio
          ≤ (⟨4, 2, 1/2, 1/4, 3/4⟩ : NpyDict).upperRehashThreshold
      ∧ loadRatio ⟨4, 2, 1/2, 1/4, 3/4⟩
          ≤ (⟨4, 2, 1/2, 1/4, 3/4⟩ : NpyDict).upperRehashThreshold)
    ∧ (loadRatio (NpyDict_Put ⟨4, 2, 1/2, 1/4, 3/4⟩)
          ≤ (⟨4, 2, 1/2, 1/4, 3/4⟩ : NpyDict).upperRehashThreshold
      ∧ loadRatio (NpyDict_Remove ⟨4, 2, 1/2, 1/4, 3/4⟩)
          ≤ (⟨4, 2, 1/2, 1/4, 3/4⟩ : NpyDict).upperRehashThreshold
      ∧ (NpyDict_Put ⟨4, 2, 1/2, 1/4, 3/4⟩).numOfElements = 2 + 1
      ∧ (NpyDict_Remove ⟨4, 2, 1/2, 1/4, 3/4⟩).numOfElements = 2 - 1) :=
  ⟨⟨by norm_num, by norm_num, by norm_num [loadRatio]⟩,
   dict_load_ratio_upper ⟨4, 2, 1/2, 1/4, 3/4⟩ (by norm_num) (by norm_num)
     (by norm_num [loadRatio])⟩
